import Mathlib

/-!
Verification development for the Little Alchemy 2 Text MCP server
(`mcp_server.py` plus `env/little_alchemy_2_text/targeted/env.py`).

The session engine is embedded shallowly: the global dictionaries
`game_sessions` and `attempt_logs` become an explicit `ServerState`
threaded through the tool dispatcher, Python dictionaries become
insertion-ordered association lists with Python-dict update semantics,
and wall-clock time becomes an abstract `Nat` clock supplied per call.

The base environment class (`env/little_alchemy_2_text/base.py`) is not
part of the sources; where its behaviour is needed it is modelled from
the spec and the call sites in `mcp_server.py` and `targeted/env.py`,
and each such definition says so in its doc comment.
-/

namespace LA2

/-- Python's `str.lower()`, character by character (the game's item
identifiers are ASCII, where the two agree). -/
def pyLower (s : String) : String :=
  ⟨s.data.map Char.toLower⟩

/-- Python's `str.strip()`: drop leading and trailing whitespace. -/
def pyStrip (s : String) : String :=
  ⟨((s.data.dropWhile Char.isWhitespace).reverse.dropWhile Char.isWhitespace).reverse⟩

/-- Environment state as seen through `mcp_server.py` and
`targeted/env.py`: `table` is the inventory (insertion ordered),
`past_valid_combs` maps an ordered index pair to the resulting item
(the composition of the stored result index with `index_to_word` is
collapsed to the word itself, since the base class holding the index
scheme is not in the sources), `past_invalid_combs` lists the index
pairs known to produce nothing, `done` is the environment's own
terminal flag, `goal` is `some g` in targeted mode (`task.goal`) and
`none` in open-ended mode, and `episode_step` counts resolver steps. -/
structure EnvState where
  table : List String
  past_valid_combs : List ((Nat × Nat) × String)
  past_invalid_combs : List (Nat × Nat)
  done : Bool
  goal : Option String
  episode_step : Nat
deriving Repr, DecidableEq

/-- The recipe resolver: the external oracle of spec section 6, returning
the resulting item of a pair or `none` for "no combination". -/
abbrev Resolver := String → String → Option String

/-- Modelled from the spec: the base environment's step
(`env.step` as called from `make_move`; `base.py` is missing from the
sources). Per spec section 4.2 steps 4-6 and `targeted/env.py`'s
`step`: resolve the pair; on no result record the pair invalid; on a
result record it valid, add the item to the inventory when absent, and
in targeted mode become `done` when the result is the goal
(`targeted/env.py` lines 85-86). Returns the new environment, the
result and the reward. Ledger keys use the items' current `table`
indices, matching the index-pair lookups in `mcp_server.py`. -/
def envStep (resolve : Resolver) (e : EnvState) (item1 item2 : String) :
    EnvState × Option String × Nat :=
  let ia := e.table.indexOf item1
  let ib := e.table.indexOf item2
  match resolve item1 item2 with
  | none =>
      ({ e with
          past_invalid_combs := e.past_invalid_combs ++ [(ia, ib)]
          episode_step := e.episode_step + 1 }, none, 0)
  | some r =>
      ({ e with
          table := if e.table.contains r then e.table else e.table ++ [r]
          past_valid_combs := e.past_valid_combs ++ [((ia, ib), r)]
          done := e.done || (e.goal == some r)
          episode_step := e.episode_step + 1 }, some r, 1)

/-- One game session, the per-session part of the `game_sessions`
dictionary of `mcp_server.py` (`create_game_session`). -/
structure Session where
  env : EnvState
  rounds_played : Nat
  max_rounds : Nat
  done : Bool
  targeted : Bool
deriving Repr, DecidableEq

/-- One entry of `attempt_logs`, the dictionary built by `log_attempt`
in `mcp_server.py`. The wall-clock fields `_timestamp` and `_datetime`
are both represented by the abstract clock value `timestamp`;
`Time_Since_Last_Success` is a difference of such clock values. -/
structure LogEntry where
  session_id : String
  attempt_number : Nat
  element1 : String
  element2 : String
  success : Bool
  result_element : Option String
  inventory_size_before : Nat
  reasoning_explanation : String
  is_novel_combination : Bool
  current_streak_type : String
  current_streak_length : Nat
  time_since_last_success : Option Nat
  timestamp : Nat
deriving Repr, DecidableEq

/-- The whole server state: the two module-level dictionaries of
`mcp_server.py`, as insertion-ordered association lists. -/
structure ServerState where
  game_sessions : List (String × Session)
  attempt_logs : List (String × List LogEntry)
deriving Repr, DecidableEq

/-- Python-dict lookup on an association list. -/
def lookupA {α : Type} (m : List (String × α)) (k : String) : Option α :=
  (m.find? (fun p => p.1 == k)).map (fun p => p.2)

/-- Python-dict assignment: update in place when the key is present
(keeping insertion order; Python dict keys are unique, so replacing the
first occurrence is the dict's behaviour), append otherwise. -/
def insertA {α : Type} : List (String × α) → String → α → List (String × α)
  | [], k, v => [(k, v)]
  | p :: m, k, v => if p.1 == k then (k, v) :: m else p :: insertA m k v

/-- Python-dict deletion. -/
def eraseA {α : Type} (m : List (String × α)) (k : String) :
    List (String × α) :=
  m.filter (fun p => p.1 != k)

/-- `get_current_streak` of `mcp_server.py` (lines 83-104): the type of
the last logged attempt and the number of trailing attempts sharing its
success flag; `("none", 0)` on an empty log. -/
def get_current_streak (logs : List LogEntry) : String × Nat :=
  match logs.reverse with
  | [] => ("none", 0)
  | last :: rest =>
      (if last.success then "success" else "failure",
       1 + (rest.takeWhile (fun l => l.success == last.success)).length)

/-- `get_time_since_last_success` of `mcp_server.py` (lines 106-118). -/
def get_time_since_last_success (logs : List LogEntry) (now : Nat) :
    Option Nat :=
  match logs.reverse.find? (fun l => l.success) with
  | some l => some (now - l.timestamp)
  | none => none

/-- Case-insensitive string comparison as used by
`is_novel_combination` (`.lower()` on both sides). -/
def sameIgnoreCase (a b : String) : Bool :=
  pyLower a == pyLower b

/-- Whether a log entry's element pair matches `(a, b)` in either
order, case-insensitively (the loop body of `is_novel_combination`,
`mcp_server.py` lines 128-131). -/
def pairMatches (l : LogEntry) (a b : String) : Bool :=
  (sameIgnoreCase l.element1 a && sameIgnoreCase l.element2 b) ||
  (sameIgnoreCase l.element1 b && sameIgnoreCase l.element2 a)

/-- `is_novel_combination` of `mcp_server.py` (lines 120-133). -/
def is_novel_combination (logs : List LogEntry) (element1 element2 : String) :
    Bool :=
  logs.all (fun l => !(pairMatches l element1 element2))

/-- `log_attempt` of `mcp_server.py` (lines 135-160): append the entry
to the session's log, creating the log when absent. -/
def log_attempt (st : ServerState) (entry : LogEntry) : ServerState :=
  let logs := (lookupA st.attempt_logs entry.session_id).getD []
  { st with attempt_logs := insertA st.attempt_logs entry.session_id (logs ++ [entry]) }

/-- `is_final_item` of `mcp_server.py` (lines 67-75); the final-items
set is a parameter since `final_items.json` is external data. -/
def is_final_item (final_items : List String) (item : String) : Bool :=
  final_items.contains (pyLower item)

/-- `get_final_item_message` of `mcp_server.py` (lines 77-81). -/
def get_final_item_message (final_items : List String) (item : String) :
    String :=
  if is_final_item final_items item then
    "🔒 '" ++ item ++ "' is a final item and cannot be combined with other items."
  else ""

/-- Ledger lookup by exact ordered key, as `mcp_server.py` reads
`past_valid_combs[combination_tuple]`. -/
def lookupValid (l : List ((Nat × Nat) × String)) (k : Nat × Nat) :
    Option String :=
  (l.find? (fun p => p.1 == k)).map (fun p => p.2)

/-- The cached result of a previously successful combination, checked
in both orders (`mcp_server.py` lines 584-597); `none` when the pair is
not recorded as valid. Only meaningful when both items occur in
`table`. -/
def repeatedResultOf (e : EnvState) (item1 item2 : String) : Option String :=
  let ia := e.table.indexOf item1
  let ib := e.table.indexOf item2
  match lookupValid e.past_valid_combs (ia, ib) with
  | some r => some r
  | none => lookupValid e.past_valid_combs (ib, ia)

/-- Whether the pair is recorded as previously failed, in either order
(`mcp_server.py` lines 600-601). -/
def isRepeatedFailed (e : EnvState) (item1 item2 : String) : Bool :=
  let ia := e.table.indexOf item1
  let ib := e.table.indexOf item2
  e.past_invalid_combs.contains (ia, ib) ||
    e.past_invalid_combs.contains (ib, ia)

/-- The outcome of the dispatched part of a move: the environment after
the move, the repeat flag and cached result (`info` in the Python), the
reward, the new items and the environment's done flag returned by
`env.step`. -/
structure StepInfo where
  env : EnvState
  isRepeat : Bool
  repeatedResult : Option String
  reward : Nat
  newItems : List String
  done : Bool
deriving Repr, DecidableEq

/-- The repeat-check-then-step block of `make_move` (`mcp_server.py`
lines 578-633). When both items occur verbatim in `table` (in the game
data all items are lowercase, so this is the live path) the ledger is
consulted in both orders and a resolved pair short-circuits without
calling `env.step`; otherwise — the Python `ValueError` fallback — the
step runs unconditionally. `newItems` compares the inventory after the
step against the one before, keeping the post-step order. -/
def dispatchMove (resolve : Resolver) (e : EnvState) (item1 item2 : String) :
    StepInfo :=
  let preInv := e.table
  if e.table.contains item1 && e.table.contains item2 then
    let rr := repeatedResultOf e item1 item2
    if rr.isSome || isRepeatedFailed e item1 item2 then
      { env := e
        isRepeat := true
        repeatedResult := rr
        reward := 0
        newItems := []
        done := e.done }
    else
      let s := envStep resolve e item1 item2
      { env := s.1
        isRepeat := false
        repeatedResult := none
        reward := s.2.2
        newItems := s.1.table.filter (fun i => !(preInv.contains i))
        done := s.1.done }
  else
    let s := envStep resolve e item1 item2
    { env := s.1
      isRepeat := false
      repeatedResult := none
      reward := s.2.2
      newItems := s.1.table.filter (fun i => !(preInv.contains i))
      done := s.1.done }

/-- The success flag and result element recorded for the attempt
(`mcp_server.py` lines 640-660). -/
def successResult (info : StepInfo) : Bool × Option String :=
  if info.isRepeat then
    match info.repeatedResult with
    | some r => (true, some r)
    | none => (false, none)
  else
    if decide (0 < info.reward) && !info.newItems.isEmpty then
      (true,
       some (match info.newItems with
             | [x] => x
             | xs => String.intercalate ", " xs))
    else (false, none)

/-- The inventory listing used in rejection messages
(`', '.join([f"'.." for item in get_inventory()])`). -/
def availableItems (e : EnvState) : String :=
  String.intercalate ", " (e.table.map (fun item => "'" ++ item ++ "'"))

/-- `summarise`: the targeted branch is `targeted/env.py` lines 90-94;
the open-ended class is not in the sources, so that branch is modelled
from the spec (section 4.2: `summarize` reports the episode length). -/
def EnvState.summarise (e : EnvState) : String :=
  match e.goal with
  | some _ =>
      if e.done then
        " having discovered the target in " ++ toString e.episode_step ++ " rounds"
      else " not having discover the target."
  | none => " after " ++ toString e.episode_step ++ " rounds"

/-- The response text of a dispatched move (`mcp_server.py` lines
678-725), given the step outcome, the updated round count, and the
session's done flag after the move. -/
def moveResponse (final_items : List String) (item1 item2 : String)
    (info : StepInfo) (roundsPlayed maxRounds attemptNumber : Nat)
    (sessionDone : Bool) : String :=
  let base :=
    if info.isRepeat then
      match info.repeatedResult with
      | some r =>
          let s := "🔄 You've already used this combination! '" ++ item1 ++ "' + '" ++
            item2 ++ "' = '" ++ r ++ "' (already in your inventory)"
          let fm := get_final_item_message final_items r
          if fm == "" then s else s ++ "\n" ++ fm
      | none =>
          "🔄 You've already tried this combination. '" ++ item1 ++ "' and '" ++
            item2 ++ "' don't combine into anything."
    else
      if decide (0 < info.reward) then
        match info.newItems with
        | [] =>
            "✅ SUCCESS! '" ++ item1 ++ "' + '" ++ item2 ++
              "' created a new item, but couldn't identify which one."
        | [x] =>
            let s := "✅ SUCCESS! '" ++ item1 ++ "' + '" ++ item2 ++ "' = '" ++ x ++
              "'" ++ "\n🎉 '" ++ x ++ "' has been added to your inventory!"
            let fm := get_final_item_message final_items x
            if fm == "" then s else s ++ "\n" ++ fm
        | xs =>
            let itemsList := String.intercalate "', '" xs
            let s := "✅ SUCCESS! '" ++ item1 ++ "' + '" ++ item2 ++ "' = '" ++
              itemsList ++ "'" ++ "\n🎉 " ++ toString xs.length ++
              " items have been added to your inventory: '" ++ itemsList ++ "'"
            xs.foldl (fun acc item =>
              let fm := get_final_item_message final_items item
              if fm == "" then acc else acc ++ "\n" ++ fm) s
      else
        "❌ No result: '" ++ item1 ++ "' and '" ++ item2 ++
          "' don't combine into anything."
  let r1 := base ++ "\n\nRounds used: " ++ toString roundsPlayed ++ "/" ++
    toString maxRounds ++ "\nItems discovered: " ++ toString info.env.table.length ++
    "\n📝 Logged attempt #" ++ toString attemptNumber ++
    " (Use 'get_attempt_logs' to view all logs)"
  if sessionDone then r1 ++ "\n\n🎮 GAME COMPLETED!" ++ info.env.summarise else r1

/-- The session after a dispatched move: the environment from the step,
`rounds_played` incremented (`mcp_server.py` line 636), and the done
flag set when the environment reports done or the budget is reached
(lines 637-638; the session was active on entry, so assignment and
disjunction agree). -/
def moveSessionAfter (resolve : Resolver) (session : Session)
    (item1 item2 : String) : Session :=
  let info := dispatchMove resolve session.env item1 item2
  let roundsPlayed := session.rounds_played + 1
  { session with
      env := info.env
      rounds_played := roundsPlayed
      done := info.done || decide (session.max_rounds ≤ roundsPlayed) }

/-- The log entry a dispatched move appends (`mcp_server.py` lines
548-562 for the captured fields and 662-676 for the call): the attempt
number, streak, time-since-success and novelty flag are all computed
from the session's log as it was before this attempt. -/
def moveEntry (resolve : Resolver) (now : Nat) (st : ServerState)
    (session_id : String) (session : Session)
    (item1 item2 reasoning : String) : LogEntry :=
  let logs := (lookupA st.attempt_logs session_id).getD []
  let info := dispatchMove resolve session.env item1 item2
  let sr := successResult info
  { session_id := session_id
    attempt_number := logs.length + 1
    element1 := item1
    element2 := item2
    success := sr.1
    result_element := sr.2
    inventory_size_before := session.env.table.length
    reasoning_explanation := reasoning
    is_novel_combination := is_novel_combination logs item1 item2
    current_streak_type := (get_current_streak logs).1
    current_streak_length := (get_current_streak logs).2
    time_since_last_success := get_time_since_last_success logs now
    timestamp := now }

/-- The tail of `make_move` once all preconditions hold (`mcp_server.py`
lines 548-730): run the move, update the session in place, then log and
build the response. `logFail = some msg` models the logging step
raising with message `msg`: the Python `except` at line 732 then
returns the error report, with the session mutations (which happened in
place before the `log_attempt` call) kept. -/
def dispatchedMove (resolve : Resolver) (final_items : List String)
    (logFail : Option String) (now : Nat) (st : ServerState)
    (session_id : String) (session : Session)
    (item1 item2 reasoning : String) : ServerState × String :=
  let info := dispatchMove resolve session.env item1 item2
  let session' := moveSessionAfter resolve session item1 item2
  let st' := { st with game_sessions := insertA st.game_sessions session_id session' }
  match logFail with
  | some msg => (st', "❌ Error making move: " ++ msg)
  | none =>
      let entry := moveEntry resolve now st session_id session item1 item2 reasoning
      (log_attempt st' entry,
       moveResponse final_items item1 item2 info (session.rounds_played + 1)
         session.max_rounds entry.attempt_number session'.done)

/-- The `make_move` tool handler (`mcp_server.py` lines 525-736). The
argument strings are stripped and lowercased on entry (lines 527-529);
an unknown session, a finished session, or an item missing from the
case-insensitive inventory is rejected without any state change. The
pure pre-computations the Python performs before its inventory checks
(attempt number, streak, novelty) are used only after them, so they
live in `dispatchedMove`. -/
def make_move (resolve : Resolver) (final_items : List String)
    (logFail : Option String) (now : Nat) (st : ServerState)
    (session_id rawItem1 rawItem2 rawReasoning : String) :
    ServerState × String :=
  let item1 := pyLower (pyStrip rawItem1)
  let item2 := pyLower (pyStrip rawItem2)
  let reasoning := pyStrip rawReasoning
  match lookupA st.game_sessions session_id with
  | none =>
      (st, "❌ Game session '" ++ session_id ++
        "' not found. Use start_game to create a new session.")
  | some session =>
      if session.done then
        (st, "🎮 This game session has already ended. Start a new game to continue playing.")
      else if !((session.env.table.map pyLower).contains item1) then
        (st, "❌ '" ++ item1 ++ "' is not in your inventory. Available items: " ++
          availableItems session.env)
      else if !((session.env.table.map pyLower).contains item2) then
        (st, "❌ '" ++ item2 ++ "' is not in your inventory. Available items: " ++
          availableItems session.env)
      else
        dispatchedMove resolve final_items logFail now st session_id session
          item1 item2 reasoning

/-- A tool call as dispatched by `call_tool` in `mcp_server.py`. The
`start_game` constructor carries the freshly reset environment
(`create_game_session` builds it through `gym.make` and a random seed,
which is external nondeterminism). -/
inductive ToolCall where
  | start_game (session_id game_mode : String) (max_rounds : Nat) (initEnv : EnvState)
  | get_game_state (session_id : String)
  | make_move (session_id item1 item2 reasoning : String)
  | list_active_sessions
  | end_game (session_id : String)
  | get_attempt_logs (session_id fmt : String)
  | debug_logging_status

/-- The state text of `get_game_state` (`mcp_server.py` lines 204-237),
abbreviated to its data content: response formatting is out of scope
(spec section 1) and no claim reads this text; what matters is that the
call never mutates state. -/
def get_game_state_text (session : Session) : String :=
  "=== LITTLE ALCHEMY 2 TEXT ===\nGame Mode: " ++
    (if session.targeted then "Targeted" else "Open-ended") ++
    "\nRounds Remaining: " ++ toString (session.max_rounds - session.rounds_played) ++
    "\nItems Discovered: " ++ toString session.env.table.length ++
    "\n\nCURRENT INVENTORY:\n" ++
    String.intercalate ", " (session.env.table.map (fun item => "'" ++ item ++ "'"))

/-- The tool dispatcher `call_tool` of `mcp_server.py` (lines 465-936).
`start_game` rejects a duplicate id without mutation; `end_game`
deletes the session together with its attempt log (lines 788-791); the
remaining tools are read-only, their display texts abbreviated (out of
scope per spec section 1). -/
def call_tool (resolve : Resolver) (final_items : List String)
    (logFail : Option String) (now : Nat) (st : ServerState) :
    ToolCall → ServerState × String
  | .start_game session_id game_mode max_rounds initEnv =>
      if (lookupA st.game_sessions session_id).isSome then
        (st, "❌ Game session '" ++ session_id ++
          "' already exists. Please choose a different session_id or end the existing session first.")
      else
        let session : Session :=
          { env := initEnv
            rounds_played := 0
            max_rounds := max_rounds
            done := false
            targeted := game_mode == "targeted" }
        ({ st with game_sessions := insertA st.game_sessions session_id session },
         "🎮 NEW GAME STARTED!\nSession ID: " ++ session_id)
  | .get_game_state session_id =>
      match lookupA st.game_sessions session_id with
      | none =>
          (st, "❌ Game session '" ++ session_id ++
            "' not found. Use start_game to create a new session.")
      | some session => (st, get_game_state_text session)
  | .make_move session_id item1 item2 reasoning =>
      make_move resolve final_items logFail now st session_id item1 item2 reasoning
  | .list_active_sessions =>
      (st, if st.game_sessions.isEmpty then
        "📋 No active game sessions. Use start_game to create a new session."
      else "📋 ACTIVE GAME SESSIONS:")
  | .end_game session_id =>
      match lookupA st.game_sessions session_id with
      | none => (st, "❌ Game session '" ++ session_id ++ "' not found.")
      | some _ =>
          ({ game_sessions := eraseA st.game_sessions session_id
             attempt_logs := eraseA st.attempt_logs session_id },
           "🎮 GAME SESSION '" ++ session_id ++ "' ENDED")
  | .get_attempt_logs session_id _fmt =>
      (st, match lookupA st.attempt_logs session_id with
        | none => "📋 No attempt logs found for session '" ++ session_id ++ "'."
        | some logs =>
            if logs.isEmpty then
              "📋 No attempt logs found for session '" ++ session_id ++ "'."
            else "📊 ATTEMPT LOGS - Session: " ++ session_id)
  | .debug_logging_status =>
      (st, "🔍 LOGGING SYSTEM DEBUG STATUS")

/-- The server states reachable from the initial empty dictionaries
through any sequence of tool calls, with the resolver, the final-item
set, logging success and the clock free to vary between calls. -/
inductive Reachable : ServerState → Prop where
  | init : Reachable { game_sessions := [], attempt_logs := [] }
  | step (resolve : Resolver) (final_items : List String)
      (logFail : Option String) (now : Nat) (c : ToolCall)
      {st : ServerState} : Reachable st →
      Reachable (call_tool resolve final_items logFail now st c).1

/-- One tool-call step after which the session `session_id` (still)
exists: the lifetime of a single session object inside the registry. -/
def SessionStep (session_id : String) (st st' : ServerState) : Prop :=
  (∃ resolve final_items logFail now c,
    st' = (call_tool resolve final_items logFail now st c).1) ∧
  (lookupA st'.game_sessions session_id).isSome = true

/-- The base inventory of the game: the four primordial items. -/
def baseEnv : EnvState :=
  { table := ["air", "earth", "fire", "water"]
    past_valid_combs := []
    past_invalid_combs := []
    done := false
    goal := none
    episode_step := 0 }

/-- A concrete resolver for witnesses, matching the spec's scenario
recipes. -/
def demoResolve : Resolver := fun a b =>
  if (a == "air" && b == "fire") || (a == "fire" && b == "air") then some "energy"
  else if (a == "earth" && b == "water") || (a == "water" && b == "earth") then some "mud"
  else if (a == "air" && b == "water") || (a == "water" && b == "air") then some "rain"
  else none

/-- A fresh open-ended session with a budget of ten rounds. -/
def demoSession : Session :=
  { env := baseEnv
    rounds_played := 0
    max_rounds := 10
    done := false
    targeted := false }

/-- A server holding the single fresh session `"demo"`. -/
def demoState : ServerState :=
  { game_sessions := [("demo", demoSession)], attempt_logs := [] }

/-- Fold a list of concrete `make_move` calls over a server state, with
`demoResolve`, no final items, logging succeeding and the clock at 0. -/
def runMoves (st : ServerState) (moves : List (String × String)) : ServerState :=
  moves.foldl (fun s m => (make_move demoResolve [] none 0 s "demo" m.1 m.2 "").1) st

/-- The length of the leading run of entries whose success flag equals
`b`: an independent, spec-side formulation of a run of same-outcome
attempts (spec section 3, "streak"). Applied to a reversed log it is
the trailing run. -/
def runLen (b : Bool) : List LogEntry → Nat
  | [] => 0
  | e :: rest => if e.success == b then runLen b rest + 1 else 0

/-- The streak of consecutive same-outcome attempts ending at and
including the last entry of the log, stated through `runLen`
(spec glossary: "run-length of consecutive same-outcome attempts ending
at the most recent log entry"). -/
def trailingStreak (logs : List LogEntry) : String × Nat :=
  match logs.reverse with
  | [] => ("none", 0)
  | last :: rest =>
      (if last.success then "success" else "failure",
       runLen last.success rest + 1)

/-- The spec's novelty property of a log: each entry's recorded flag is
the novelty of its pair relative to the entries before it. -/
def NoveltyOk (logs : List LogEntry) : Prop :=
  ∀ i (h : i < logs.length),
    (logs.get ⟨i, h⟩).is_novel_combination =
      is_novel_combination (logs.take i) (logs.get ⟨i, h⟩).element1
        (logs.get ⟨i, h⟩).element2

/-- The spec's numbering invariant of a log: attempt numbers are
exactly 1, 2, 3, ... in order. -/
def NumberingOk (logs : List LogEntry) : Prop :=
  ∀ i (h : i < logs.length), (logs.get ⟨i, h⟩).attempt_number = i + 1

/-- Every session's attempt log satisfies both per-log invariants. -/
def LogsOk (st : ServerState) : Prop :=
  ∀ sid logs, lookupA st.attempt_logs sid = some logs →
    NoveltyOk logs ∧ NumberingOk logs

/-- The spec's streak-recording property of a log, as claimed: each
entry records the run-length of same-outcome attempts ending at and
including that entry. -/
def StreakAsClaimed (logs : List LogEntry) : Prop :=
  ∀ i (h : i < logs.length),
    ((logs.get ⟨i, h⟩).current_streak_type,
     (logs.get ⟨i, h⟩).current_streak_length) =
      trailingStreak (logs.take (i + 1))

/-- The five-move scenario of spec section 8: two failing pairs, then
three successes — a log with outcomes `[F, F, S, S, S]`. -/
def fiveMoves : ServerState :=
  runMoves demoState
    [("air", "earth"), ("earth", "fire"), ("air", "fire"),
     ("earth", "water"), ("air", "water")]

/-- The state of the `"demo"` session after the single successful
attempt `(air, fire)`: the pair is now recorded in the ledger. -/
def oneMove : ServerState := runMoves demoState [("air", "fire")]

/-- The `"demo"` session inside `oneMove`. -/
def oneMoveSession : Session :=
  (lookupA oneMove.game_sessions "demo").getD demoSession

/-- A session whose done flag is set. -/
def doneSession : Session := { demoSession with done := true }

/-- A server holding one finished session. -/
def doneState : ServerState :=
  { game_sessions := [("demo", doneSession)], attempt_logs := [] }

/-- A fresh targeted session whose goal is `energy` (the targeted
scenario of spec section 8). -/
def tgtSession : Session :=
  { env := { baseEnv with goal := some "energy" }
    rounds_played := 0
    max_rounds := 10
    done := false
    targeted := true }

/-- A server holding the single fresh targeted session `"tgt"`. -/
def tgtState : ServerState :=
  { game_sessions := [("tgt", tgtSession)], attempt_logs := [] }

/-- The state after calling `make_move` with the unnormalized argument
`"Air "` (trailing blank, capital letter). -/
def mixedCaseMove : ServerState :=
  (make_move demoResolve [] none 0 demoState "demo" "Air " "fire" "why").1

/-- A session after attempting `(air, fire)` and then the reversed
`(fire, air)`: the second attempt hits the ledger. -/
def twoMoves : ServerState :=
  runMoves demoState [("air", "fire"), ("fire", "air")]

end LA2

namespace LA2

theorem lookupA_nil {α : Type} (k : String) :
    lookupA ([] : List (String × α)) k = none := rfl

theorem lookupA_cons {α : Type} (p : String × α) (m : List (String × α))
    (k : String) :
    lookupA (p :: m) k = if p.1 = k then some p.2 else lookupA m k := by
  by_cases h : p.1 = k <;> simp [lookupA, List.find?_cons, h]

theorem lookupA_insertA {α : Type} (m : List (String × α)) (k k' : String)
    (v : α) :
    lookupA (insertA m k v) k' = if k' = k then some v else lookupA m k' := by
  induction m with
  | nil =>
      by_cases h : k' = k <;> simp [insertA, lookupA_cons, h, Ne.symm]
  | cons p m ih =>
      by_cases h : p.1 = k
      · by_cases h' : k' = k <;>
          simp [insertA, h, lookupA_cons, h', Ne.symm, ih]
      · by_cases h' : k' = k <;> by_cases h'' : p.1 = k' <;>
          simp_all [insertA, lookupA_cons]

theorem lookupA_eraseA {α : Type} (m : List (String × α)) (k k' : String) :
    lookupA (eraseA m k) k' = if k' = k then none else lookupA m k' := by
  induction m with
  | nil => by_cases h : k' = k <;> simp [eraseA, lookupA, h]
  | cons p m ih =>
      by_cases h : p.1 = k <;> by_cases h' : k' = k <;> by_cases h'' : p.1 = k' <;>
        simp_all [eraseA, lookupA_cons]

end LA2

namespace LA2

theorem dispatchedMove_game_sessions (resolve : Resolver) (fi : List String)
    (lf : Option String) (now : Nat) (st : ServerState) (sid : String)
    (s : Session) (i1 i2 r : String) :
    (dispatchedMove resolve fi lf now st sid s i1 i2 r).1.game_sessions =
      insertA st.game_sessions sid (moveSessionAfter resolve s i1 i2) := by
  cases lf <;> rfl

theorem dispatchedMove_attempt_logs_ok (resolve : Resolver) (fi : List String)
    (now : Nat) (st : ServerState) (sid : String) (s : Session) (i1 i2 r : String) :
    (dispatchedMove resolve fi none now st sid s i1 i2 r).1.attempt_logs =
      insertA st.attempt_logs sid
        (((lookupA st.attempt_logs sid).getD []) ++
          [moveEntry resolve now st sid s i1 i2 r]) := rfl

theorem dispatchedMove_attempt_logs_fail (resolve : Resolver) (fi : List String)
    (msg : String) (now : Nat) (st : ServerState) (sid : String) (s : Session)
    (i1 i2 r : String) :
    (dispatchedMove resolve fi (some msg) now st sid s i1 i2 r).1.attempt_logs =
      st.attempt_logs := rfl

theorem make_move_not_found (resolve : Resolver) (fi : List String)
    (lf : Option String) (now : Nat) (st : ServerState) (sid a b r : String)
    (h : lookupA st.game_sessions sid = none) :
    make_move resolve fi lf now st sid a b r =
      (st, "❌ Game session '" ++ sid ++
        "' not found. Use start_game to create a new session.") := by
  simp only [make_move, h]

theorem make_move_already_done (resolve : Resolver) (fi : List String)
    (lf : Option String) (now : Nat) (st : ServerState) (sid a b r : String)
    (s : Session) (h : lookupA st.game_sessions sid = some s)
    (hd : s.done = true) :
    make_move resolve fi lf now st sid a b r =
      (st, "🎮 This game session has already ended. Start a new game to continue playing.") := by
  simp only [make_move, h, hd]
  simp

theorem make_move_item1_missing (resolve : Resolver) (fi : List String)
    (lf : Option String) (now : Nat) (st : ServerState) (sid a b r : String)
    (s : Session) (h : lookupA st.game_sessions sid = some s)
    (hd : s.done = false)
    (h1 : (s.env.table.map pyLower).contains (pyLower (pyStrip a)) = false) :
    make_move resolve fi lf now st sid a b r =
      (st, "❌ '" ++ pyLower (pyStrip a) ++
        "' is not in your inventory. Available items: " ++ availableItems s.env) := by
  simp only [make_move, h, hd, h1]
  simp

theorem make_move_item2_missing (resolve : Resolver) (fi : List String)
    (lf : Option String) (now : Nat) (st : ServerState) (sid a b r : String)
    (s : Session) (h : lookupA st.game_sessions sid = some s)
    (hd : s.done = false)
    (h1 : (s.env.table.map pyLower).contains (pyLower (pyStrip a)) = true)
    (h2 : (s.env.table.map pyLower).contains (pyLower (pyStrip b)) = false) :
    make_move resolve fi lf now st sid a b r =
      (st, "❌ '" ++ pyLower (pyStrip b) ++
        "' is not in your inventory. Available items: " ++ availableItems s.env) := by
  simp only [make_move, h, hd, h1, h2]
  simp

theorem make_move_dispatched (resolve : Resolver) (fi : List String)
    (lf : Option String) (now : Nat) (st : ServerState) (sid a b r : String)
    (s : Session) (h : lookupA st.game_sessions sid = some s)
    (hd : s.done = false)
    (h1 : (s.env.table.map pyLower).contains (pyLower (pyStrip a)) = true)
    (h2 : (s.env.table.map pyLower).contains (pyLower (pyStrip b)) = true) :
    make_move resolve fi lf now st sid a b r =
      dispatchedMove resolve fi lf now st sid s (pyLower (pyStrip a))
        (pyLower (pyStrip b)) (pyStrip r) := by
  simp only [make_move, h, hd, h1, h2]
  simp

theorem moveSessionAfter_rounds (resolve : Resolver) (s : Session)
    (i1 i2 : String) :
    (moveSessionAfter resolve s i1 i2).rounds_played = s.rounds_played + 1 := rfl

end LA2

namespace LA2

theorem moveEntry_fields (resolve : Resolver) (now : Nat) (st : ServerState)
    (sid : String) (s : Session) (i1 i2 r : String) :
    (moveEntry resolve now st sid s i1 i2 r).attempt_number =
        ((lookupA st.attempt_logs sid).getD []).length + 1 ∧
      (moveEntry resolve now st sid s i1 i2 r).element1 = i1 ∧
      (moveEntry resolve now st sid s i1 i2 r).element2 = i2 ∧
      (moveEntry resolve now st sid s i1 i2 r).is_novel_combination =
        is_novel_combination ((lookupA st.attempt_logs sid).getD []) i1 i2 ∧
      ((moveEntry resolve now st sid s i1 i2 r).current_streak_type,
       (moveEntry resolve now st sid s i1 i2 r).current_streak_length) =
        get_current_streak ((lookupA st.attempt_logs sid).getD []) := by
  refine ⟨rfl, rfl, rfl, rfl, ?_⟩
  rfl

theorem numberingOk_append {logs : List LogEntry} {e : LogEntry}
    (h : NumberingOk logs) (he : e.attempt_number = logs.length + 1) :
    NumberingOk (logs ++ [e]) := by
  intro i hi
  simp only [List.length_append, List.length_singleton] at hi
  rcases Nat.lt_or_ge i logs.length with hlt | hge
  · rw [List.get_append i hlt]
    exact h i hlt
  · have hieq : i = logs.length := by omega
    subst hieq
    have : (logs ++ [e]).get ⟨logs.length, by simp⟩ = e := by
      simp [List.get_append_right]
    rw [this]
    exact he

theorem noveltyOk_append {logs : List LogEntry} {e : LogEntry}
    (h : NoveltyOk logs)
    (he : e.is_novel_combination =
      is_novel_combination logs e.element1 e.element2) :
    NoveltyOk (logs ++ [e]) := by
  intro i hi
  simp only [List.length_append, List.length_singleton] at hi
  rcases Nat.lt_or_ge i logs.length with hlt | hge
  · rw [List.get_append i hlt, List.take_append_of_le_length (by omega)]
    exact h i hlt
  · have hieq : i = logs.length := by omega
    subst hieq
    have hg : (logs ++ [e]).get ⟨logs.length, by simp⟩ = e := by
      simp [List.get_append_right]
    rw [hg, List.take_append_of_le_length (by omega), List.take_length]
    exact he

end LA2

namespace LA2

theorem noveltyOk_nil : NoveltyOk [] := fun i h => absurd h (Nat.not_lt_zero i)

theorem numberingOk_nil : NumberingOk [] := fun i h => absurd h (Nat.not_lt_zero i)

theorem make_move_logs_shape (resolve : Resolver) (fi : List String)
    (lf : Option String) (now : Nat) (st : ServerState) (sid a b r id : String) :
    lookupA (make_move resolve fi lf now st sid a b r).1.attempt_logs id =
      lookupA st.attempt_logs id ∨
    (id = sid ∧ ∃ s, lookupA st.game_sessions sid = some s ∧
      lookupA (make_move resolve fi lf now st sid a b r).1.attempt_logs id =
        some (((lookupA st.attempt_logs sid).getD []) ++
          [moveEntry resolve now st sid s (pyLower (pyStrip a))
            (pyLower (pyStrip b)) (pyStrip r)])) := by
  cases hs : lookupA st.game_sessions sid with
  | none => left; rw [make_move_not_found resolve fi lf now st sid a b r hs]
  | some s =>
      cases hd : s.done with
      | true =>
          left
          rw [make_move_already_done resolve fi lf now st sid a b r s hs hd]
      | false =>
          cases h1 : (s.env.table.map pyLower).contains (pyLower (pyStrip a)) with
          | false =>
              left
              rw [make_move_item1_missing resolve fi lf now st sid a b r s hs hd h1]
          | true =>
              cases h2 : (s.env.table.map pyLower).contains (pyLower (pyStrip b)) with
              | false =>
                  left
                  rw [make_move_item2_missing resolve fi lf now st sid a b r s hs hd h1 h2]
              | true =>
                  rw [make_move_dispatched resolve fi lf now st sid a b r s hs hd h1 h2]
                  cases lf with
                  | some msg =>
                      left
                      rw [dispatchedMove_attempt_logs_fail resolve fi msg now st sid s]
                  | none =>
                      rw [dispatchedMove_attempt_logs_ok resolve fi now st sid s]
                      by_cases hid : id = sid
                      · right
                        subst hid
                        refine ⟨rfl, ?_⟩
                        refine ⟨s, rfl, ?_⟩
                        rw [lookupA_insertA]
                        simp
                      · left
                        rw [lookupA_insertA]
                        simp [hid]

theorem logsOk_getD {st : ServerState} (h : LogsOk st) (sid : String) :
    NoveltyOk ((lookupA st.attempt_logs sid).getD []) ∧
      NumberingOk ((lookupA st.attempt_logs sid).getD []) := by
  cases hl : lookupA st.attempt_logs sid with
  | none => exact ⟨noveltyOk_nil, numberingOk_nil⟩
  | some logs => simpa using h sid logs hl

theorem logsOk_step (resolve : Resolver) (fi : List String) (lf : Option String)
    (now : Nat) (st : ServerState) (c : ToolCall) (h : LogsOk st) :
    LogsOk (call_tool resolve fi lf now st c).1 := by
  intro id logs hl
  cases c with
  | start_game sid mode mr env =>
      cases hp : (lookupA st.game_sessions sid).isSome <;>
        simp only [call_tool, hp] at hl <;> simp at hl <;> exact h id logs hl
  | get_game_state sid =>
      cases hs : lookupA st.game_sessions sid <;>
        simp only [call_tool, hs] at hl <;> exact h id logs hl
  | make_move sid a b r =>
      simp only [call_tool] at hl
      rcases make_move_logs_shape resolve fi lf now st sid a b r id with
        heq | ⟨hid, s, hs, heq⟩
      · exact h id logs (heq ▸ hl)
      · subst hid
        rw [heq] at hl
        obtain ⟨hn, hnum⟩ := logsOk_getD h id
        cases hl
        constructor
        · exact noveltyOk_append hn
            (moveEntry_fields resolve now st id s (pyLower (pyStrip a))
              (pyLower (pyStrip b)) (pyStrip r)).2.2.2.1
        · exact numberingOk_append hnum
            (moveEntry_fields resolve now st id s (pyLower (pyStrip a))
              (pyLower (pyStrip b)) (pyStrip r)).1
  | list_active_sessions => exact h id logs hl
  | end_game sid =>
      cases hs : lookupA st.game_sessions sid with
      | none => simp only [call_tool, hs] at hl; exact h id logs hl
      | some s =>
          simp only [call_tool, hs] at hl
          rw [lookupA_eraseA] at hl
          by_cases hid : id = sid
          · simp [hid] at hl
          · simp only [if_neg hid] at hl
            exact h id logs hl
  | get_attempt_logs sid fmt => exact h id logs hl
  | debug_logging_status => exact h id logs hl

end LA2

namespace LA2

theorem reachable_logsOk {st : ServerState} (h : Reachable st) : LogsOk st := by
  induction h with
  | init =>
      intro id logs hl
      simp [lookupA] at hl
  | step resolve fi lf now c hst ih =>
      exact logsOk_step resolve fi lf now _ c ih

theorem pairMatches_congr {e : LogEntry} {a b : String}
    (h : pairMatches e a b = true) (f : LogEntry) :
    pairMatches f e.element1 e.element2 = pairMatches f a b := by
  simp only [pairMatches, sameIgnoreCase, Bool.or_eq_true, Bool.and_eq_true,
    beq_iff_eq] at h
  rcases h with ⟨h1, h2⟩ | ⟨h1, h2⟩
  · simp only [pairMatches, sameIgnoreCase, h1, h2]
  · simp only [pairMatches, sameIgnoreCase, h1, h2]
    rw [Bool.or_comm]

theorem is_novel_congr {e : LogEntry} {a b : String}
    (h : pairMatches e a b = true) (l : List LogEntry) :
    is_novel_combination l e.element1 e.element2 = is_novel_combination l a b := by
  induction l with
  | nil => rfl
  | cons f l ih =>
      simp only [is_novel_combination, List.all_cons] at ih ⊢
      rw [pairMatches_congr h f, ih]

theorem make_move_sessions_other (resolve : Resolver) (fi : List String)
    (lf : Option String) (now : Nat) (st : ServerState) (sid a b r id : String)
    (hne : id ≠ sid) :
    lookupA (make_move resolve fi lf now st sid a b r).1.game_sessions id =
      lookupA st.game_sessions id := by
  cases hs : lookupA st.game_sessions sid with
  | none => rw [make_move_not_found resolve fi lf now st sid a b r hs]
  | some s =>
      cases hd : s.done with
      | true => rw [make_move_already_done resolve fi lf now st sid a b r s hs hd]
      | false =>
          cases h1 : (s.env.table.map pyLower).contains (pyLower (pyStrip a)) with
          | false =>
              rw [make_move_item1_missing resolve fi lf now st sid a b r s hs hd h1]
          | true =>
              cases h2 : (s.env.table.map pyLower).contains (pyLower (pyStrip b)) with
              | false =>
                  rw [make_move_item2_missing resolve fi lf now st sid a b r s hs hd h1 h2]
              | true =>
                  rw [make_move_dispatched resolve fi lf now st sid a b r s hs hd h1 h2]
                  rw [show (dispatchedMove resolve fi lf now st sid s
                      (pyLower (pyStrip a)) (pyLower (pyStrip b)) (pyStrip r)).1.game_sessions =
                      insertA st.game_sessions sid
                        (moveSessionAfter resolve s (pyLower (pyStrip a)) (pyLower (pyStrip b))) from
                    dispatchedMove_game_sessions resolve fi lf now st sid s
                      (pyLower (pyStrip a)) (pyLower (pyStrip b)) (pyStrip r)]
                  rw [lookupA_insertA]
                  simp [hne]

theorem call_tool_done_preserved (resolve : Resolver) (fi : List String)
    (lf : Option String) (now : Nat) (st : ServerState) (c : ToolCall)
    (sid : String) (s : Session)
    (hs : lookupA st.game_sessions sid = some s) (hd : s.done = true) :
    lookupA (call_tool resolve fi lf now st c).1.game_sessions sid = some s ∨
    lookupA (call_tool resolve fi lf now st c).1.game_sessions sid = none := by
  cases c with
  | start_game sid' mode mr env =>
      cases hp : (lookupA st.game_sessions sid').isSome with
      | true => left; simp only [call_tool, hp]; simp; exact hs
      | false =>
          left
          have hne : sid ≠ sid' := by
            intro hcontra
            subst hcontra
            rw [hs] at hp
            simp at hp
          simp only [call_tool, hp]
          simp
          rw [lookupA_insertA]
          simp [hne]
          exact hs
  | get_game_state sid' =>
      left
      cases hs' : lookupA st.game_sessions sid' <;> simp only [call_tool, hs'] <;> exact hs
  | make_move sid' a b r =>
      left
      by_cases hid : sid' = sid
      · subst hid
        simp only [call_tool]
        rw [make_move_already_done resolve fi lf now st sid' a b r s hs hd]
        exact hs
      · simp only [call_tool]
        rw [make_move_sessions_other resolve fi lf now st sid' a b r sid
          (fun hcontra => hid (hcontra.symm))]
        exact hs
  | list_active_sessions => left; exact hs
  | end_game sid' =>
      cases hs' : lookupA st.game_sessions sid' with
      | none => left; simp only [call_tool, hs']; exact hs
      | some s' =>
          simp only [call_tool, hs']
          by_cases hid : sid = sid'
          · right
            show lookupA (eraseA st.game_sessions sid') sid = none
            rw [lookupA_eraseA]
            simp [hid]
          · left
            show lookupA (eraseA st.game_sessions sid') sid = some s
            rw [lookupA_eraseA]
            simp only [if_neg hid]
            exact hs
  | get_attempt_logs sid' fmt => left; exact hs
  | debug_logging_status => left; exact hs

theorem sessionChain_done {sid : String} {st st' : ServerState} {s : Session}
    (hs : lookupA st.game_sessions sid = some s) (hd : s.done = true)
    (hchain : Relation.ReflTransGen (SessionStep sid) st st') :
    ∃ s', lookupA st'.game_sessions sid = some s' ∧ s'.done = true := by
  induction hchain with
  | refl => exact ⟨s, hs, hd⟩
  | tail hab hbc ih =>
      obtain ⟨s', hs', hd'⟩ := ih
      obtain ⟨⟨resolve, fi, lf, now, c, heq⟩, hpres⟩ := hbc
      subst heq
      rcases call_tool_done_preserved resolve fi lf now _ c sid s' hs' hd' with h | h
      · exact ⟨s', h, hd'⟩
      · rw [h] at hpres
        simp at hpres

end LA2

namespace LA2

theorem dispatchMove_repeat (resolve : Resolver) (e : EnvState) (i1 i2 : String)
    (ht1 : e.table.contains i1 = true) (ht2 : e.table.contains i2 = true)
    (hr : ((repeatedResultOf e i1 i2).isSome || isRepeatedFailed e i1 i2) = true) :
    dispatchMove resolve e i1 i2 =
      { env := e
        isRepeat := true
        repeatedResult := repeatedResultOf e i1 i2
        reward := 0
        newItems := []
        done := e.done } := by
  simp only [dispatchMove, ht1, ht2, hr]
  simp

theorem dispatchMove_goal_done (resolve : Resolver) (e : EnvState)
    (i1 i2 g : String) (hg : e.goal = some g) (hres : resolve i1 i2 = some g)
    (hr : ((repeatedResultOf e i1 i2).isSome || isRepeatedFailed e i1 i2) = false) :
    (dispatchMove resolve e i1 i2).done = true := by
  by_cases hc : (e.table.contains i1 && e.table.contains i2) = true
  · simp only [dispatchMove, hc, hr]
    simp [envStep, hres, hg]
  · simp only [dispatchMove, hc]
    simp only [Bool.not_eq_true] at hc
    simp [hc, envStep, hres, hg]

theorem takeWhile_length_eq_runLen (b : Bool) (l : List LogEntry) :
    (l.takeWhile (fun e => e.success == b)).length = runLen b l := by
  induction l with
  | nil => rfl
  | cons e l ih =>
      by_cases h : e.success = b <;>
        simp [List.takeWhile_cons, runLen, h, ih]

theorem get_current_streak_eq_trailingStreak (logs : List LogEntry) :
    get_current_streak logs = trailingStreak logs := by
  simp only [get_current_streak, trailingStreak]
  cases logs.reverse with
  | nil => rfl
  | cons last rest =>
      dsimp only
      rw [takeWhile_length_eq_runLen]
      simp [Nat.add_comm]

theorem dispatchedMove_resolver_congr (resolve resolve' : Resolver)
    (fi : List String) (lf : Option String) (now : Nat) (st : ServerState)
    (sid : String) (s : Session) (i1 i2 r : String)
    (h : dispatchMove resolve s.env i1 i2 = dispatchMove resolve' s.env i1 i2) :
    dispatchedMove resolve fi lf now st sid s i1 i2 r =
      dispatchedMove resolve' fi lf now st sid s i1 i2 r := by
  simp only [dispatchedMove, moveSessionAfter, moveEntry, h]

theorem make_move_dispatched_session (resolve : Resolver) (fi : List String)
    (lf : Option String) (now : Nat) (st : ServerState) (sid a b r : String)
    (s : Session) (hs : lookupA st.game_sessions sid = some s)
    (hd : s.done = false)
    (h1 : (s.env.table.map pyLower).contains (pyLower (pyStrip a)) = true)
    (h2 : (s.env.table.map pyLower).contains (pyLower (pyStrip b)) = true) :
    lookupA (make_move resolve fi lf now st sid a b r).1.game_sessions sid =
      some (moveSessionAfter resolve s (pyLower (pyStrip a))
        (pyLower (pyStrip b))) := by
  rw [make_move_dispatched resolve fi lf now st sid a b r s hs hd h1 h2,
    dispatchedMove_game_sessions resolve fi lf now st sid s
      (pyLower (pyStrip a)) (pyLower (pyStrip b)) (pyStrip r),
    lookupA_insertA]
  simp

theorem moveSessionAfter_repeat_env (resolve : Resolver) (s : Session)
    (i1 i2 : String) (ht1 : s.env.table.contains i1 = true)
    (ht2 : s.env.table.contains i2 = true)
    (hr : ((repeatedResultOf s.env i1 i2).isSome ||
      isRepeatedFailed s.env i1 i2) = true) :
    (moveSessionAfter resolve s i1 i2).env = s.env := by
  simp only [moveSessionAfter, dispatchMove_repeat resolve s.env i1 i2 ht1 ht2 hr]

end LA2

namespace LA2

theorem reachable_demoState : Reachable demoState := by
  have h1 := Reachable.step demoResolve [] none 0
    (ToolCall.start_game "demo" "open-ended" 10 baseEnv) Reachable.init
  have e1 : (call_tool demoResolve [] none 0
      { game_sessions := [], attempt_logs := [] }
      (ToolCall.start_game "demo" "open-ended" 10 baseEnv)).1 = demoState := by decide
  rwa [e1] at h1

theorem reachable_runMoves (st : ServerState) (h : Reachable st)
    (moves : List (String × String)) : Reachable (runMoves st moves) := by
  induction moves generalizing st with
  | nil => exact h
  | cons m ms ih =>
      exact ih _ (Reachable.step demoResolve [] none 0
        (ToolCall.make_move "demo" m.1 m.2 "") h)

theorem reachable_twoMoves : Reachable twoMoves :=
  reachable_runMoves demoState reachable_demoState [("air", "fire"), ("fire", "air")]

theorem reachable_fiveMoves : Reachable fiveMoves :=
  reachable_runMoves demoState reachable_demoState
    [("air", "earth"), ("earth", "fire"), ("air", "fire"),
     ("earth", "water"), ("air", "water")]

end LA2

namespace LA2

/-- C1: a dispatched `make_move` (session exists, active, both items in
the case-insensitive inventory) increments the session's rounds-played
counter by exactly 1, whatever the outcome; a `make_move` rejected
because an item is missing from the inventory leaves the whole server
state unchanged and returns exactly the rejection text naming the
offending item and listing the current inventory. -/
theorem c1_round_consumption (resolve : Resolver) (fi : List String)
    (lf : Option String) (now : Nat) (st : ServerState) (sid a b r : String)
    (s : Session) (hs : lookupA st.game_sessions sid = some s)
    (hd : s.done = false) :
    ((s.env.table.map pyLower).contains (pyLower (pyStrip a)) = true →
     (s.env.table.map pyLower).contains (pyLower (pyStrip b)) = true →
     ∃ s', lookupA (make_move resolve fi lf now st sid a b r).1.game_sessions sid =
         some s' ∧ s'.rounds_played = s.rounds_played + 1) ∧
    ((s.env.table.map pyLower).contains (pyLower (pyStrip a)) = false →
     make_move resolve fi lf now st sid a b r =
       (st, "❌ '" ++ pyLower (pyStrip a) ++
         "' is not in your inventory. Available items: " ++ availableItems s.env)) ∧
    ((s.env.table.map pyLower).contains (pyLower (pyStrip a)) = true →
     (s.env.table.map pyLower).contains (pyLower (pyStrip b)) = false →
     make_move resolve fi lf now st sid a b r =
       (st, "❌ '" ++ pyLower (pyStrip b) ++
         "' is not in your inventory. Available items: " ++ availableItems s.env)) := by
  refine ⟨?_, ?_, ?_⟩
  · intro h1 h2
    exact ⟨moveSessionAfter resolve s (pyLower (pyStrip a)) (pyLower (pyStrip b)),
      make_move_dispatched_session resolve fi lf now st sid a b r s hs hd h1 h2,
      moveSessionAfter_rounds resolve s (pyLower (pyStrip a)) (pyLower (pyStrip b))⟩
  · intro h1
    exact make_move_item1_missing resolve fi lf now st sid a b r s hs hd h1
  · intro h1 h2
    exact make_move_item2_missing resolve fi lf now st sid a b r s hs hd h1 h2

theorem c1_witness :
    (∃ s', lookupA (make_move demoResolve [] none 0 demoState "demo" "air" "fire" "").1.game_sessions
        "demo" = some s' ∧ s'.rounds_played = demoSession.rounds_played + 1) ∧
    make_move demoResolve [] none 0 demoState "demo" "lava" "fire" "" =
      (demoState, "❌ '" ++ pyLower (pyStrip "lava") ++
        "' is not in your inventory. Available items: " ++ availableItems demoSession.env) :=
  ⟨(c1_round_consumption demoResolve [] none 0 demoState "demo" "air" "fire" ""
      demoSession (by decide) (by decide)).1 (by decide) (by decide),
   (c1_round_consumption demoResolve [] none 0 demoState "demo" "lava" "fire" ""
      demoSession (by decide) (by decide)).2.1 (by decide)⟩

/-- C4: in every reachable server state, a log entry matching a pair
`(a, b)` in either order (case-insensitively) carries novelty flag
equal to the novelty of that pair relative to the entries before it:
`true` exactly when no earlier entry matches the pair in either
order. -/
theorem c4_novelty_flag (st : ServerState) (h : Reachable st) (sid a b : String)
    (logs : List LogEntry) (hl : lookupA st.attempt_logs sid = some logs)
    (i : Nat) (hi : i < logs.length)
    (hm : pairMatches (logs.get ⟨i, hi⟩) a b = true) :
    (logs.get ⟨i, hi⟩).is_novel_combination =
      is_novel_combination (logs.take i) a b := by
  have hinv := (reachable_logsOk h sid logs hl).1 i hi
  rw [hinv, is_novel_congr hm]

theorem c4_witness :
    ((((lookupA twoMoves.attempt_logs "demo").getD []).get ⟨1, by decide⟩).is_novel_combination =
      is_novel_combination (((lookupA twoMoves.attempt_logs "demo").getD []).take 1) "air" "fire") ∧
    is_novel_combination (((lookupA twoMoves.attempt_logs "demo").getD []).take 1) "air" "fire" = false ∧
    ((((lookupA twoMoves.attempt_logs "demo").getD []).get ⟨0, by decide⟩).is_novel_combination = true) :=
  ⟨c4_novelty_flag twoMoves reachable_twoMoves "demo" "air" "fire"
      ((lookupA twoMoves.attempt_logs "demo").getD []) (by decide) 1 (by decide) (by decide),
   by decide, by decide⟩

/-- C5: a session whose done flag is set keeps it set across any chain
of tool calls during which the session continues to exist, and every
`make_move` against it returns the session-already-ended text with the
server state (rounds, logs, inventory, ledger) completely unchanged. -/
theorem c5_terminal_monotonicity (sid : String) (st st' : ServerState)
    (s : Session) (hs : lookupA st.game_sessions sid = some s)
    (hd : s.done = true)
    (hchain : Relation.ReflTransGen (SessionStep sid) st st') :
    ∃ s', lookupA st'.game_sessions sid = some s' ∧ s'.done = true ∧
      ∀ resolve fi lf now a b r,
        make_move resolve fi lf now st' sid a b r =
          (st', "🎮 This game session has already ended. Start a new game to continue playing.") := by
  obtain ⟨s', hs', hd'⟩ := sessionChain_done hs hd hchain
  exact ⟨s', hs', hd', fun resolve fi lf now a b r =>
    make_move_already_done resolve fi lf now st' sid a b r s' hs' hd'⟩

theorem c5_witness :
    ∃ s', lookupA doneState.game_sessions "demo" = some s' ∧ s'.done = true ∧
      ∀ resolve fi lf now a b r,
        make_move resolve fi lf now doneState "demo" a b r =
          (doneState, "🎮 This game session has already ended. Start a new game to continue playing.") :=
  c5_terminal_monotonicity "demo" doneState doneState doneSession (by decide)
    (by decide) Relation.ReflTransGen.refl

/-- C7: in every reachable server state, every session's attempt log
carries attempt numbers forming exactly the sequence 1, 2, 3, ...
(the entry at index `i` is numbered `i + 1`), regardless of the
attempts' outcomes. -/
theorem c7_attempt_numbering (st : ServerState) (h : Reachable st)
    (sid : String) (logs : List LogEntry)
    (hl : lookupA st.attempt_logs sid = some logs) (i : Nat)
    (hi : i < logs.length) :
    (logs.get ⟨i, hi⟩).attempt_number = i + 1 :=
  (reachable_logsOk h sid logs hl).2 i hi

theorem c7_witness :
    (((lookupA fiveMoves.attempt_logs "demo").getD []).get ⟨4, by decide⟩).attempt_number = 5 :=
  c7_attempt_numbering fiveMoves reachable_fiveMoves "demo"
    ((lookupA fiveMoves.attempt_logs "demo").getD []) (by decide) 4 (by decide)

/-- C10: a `make_move` rejected before dispatch — unknown session id,
session already done, or an item missing from the inventory — returns
the server state exactly as it was: no log entry, no round, no
inventory or ledger change. -/
theorem c10_rejected_frame (resolve : Resolver) (fi : List String)
    (lf : Option String) (now : Nat) (st : ServerState) (sid a b r : String)
    (hrej : lookupA st.game_sessions sid = none ∨
      ∃ s, lookupA st.game_sessions sid = some s ∧
        (s.done = true ∨ (s.done = false ∧
          ((s.env.table.map pyLower).contains (pyLower (pyStrip a)) = false ∨
           ((s.env.table.map pyLower).contains (pyLower (pyStrip a)) = true ∧
            (s.env.table.map pyLower).contains (pyLower (pyStrip b)) = false))))) :
    (make_move resolve fi lf now st sid a b r).1 = st := by
  rcases hrej with hnone | ⟨s, hs, hcase⟩
  · rw [make_move_not_found resolve fi lf now st sid a b r hnone]
  · rcases hcase with hdone | ⟨hact, h1f | ⟨h1t, h2f⟩⟩
    · rw [make_move_already_done resolve fi lf now st sid a b r s hs hdone]
    · rw [make_move_item1_missing resolve fi lf now st sid a b r s hs hact h1f]
    · rw [make_move_item2_missing resolve fi lf now st sid a b r s hs hact h1t h2f]

theorem c10_witness :
    (make_move demoResolve [] none 0 demoState "ghost" "air" "fire" "").1 = demoState ∧
    (make_move demoResolve [] none 0 doneState "demo" "air" "fire" "").1 = doneState ∧
    (make_move demoResolve [] none 0 demoState "demo" "lava" "fire" "").1 = demoState :=
  ⟨c10_rejected_frame demoResolve [] none 0 demoState "ghost" "air" "fire" ""
      (Or.inl (by decide)),
   c10_rejected_frame demoResolve [] none 0 doneState "demo" "air" "fire" ""
      (Or.inr ⟨doneSession, by decide, Or.inl (by decide)⟩),
   c10_rejected_frame demoResolve [] none 0 demoState "demo" "lava" "fire" ""
      (Or.inr ⟨demoSession, by decide, Or.inr ⟨by decide, Or.inl (by decide)⟩⟩)⟩

end LA2

namespace LA2

theorem dispatchedMove_response (resolve : Resolver) (fi : List String)
    (now : Nat) (st : ServerState) (sid : String) (s : Session)
    (i1 i2 r : String) :
    (dispatchedMove resolve fi none now st sid s i1 i2 r).2 =
      moveResponse fi i1 i2 (dispatchMove resolve s.env i1 i2)
        (s.rounds_played + 1) s.max_rounds
        (((lookupA st.attempt_logs sid).getD []).length + 1)
        (moveSessionAfter resolve s i1 i2).done := rfl

theorem moveEntry_repeat (resolve : Resolver) (now : Nat) (st : ServerState)
    (sid : String) (s : Session) (i1 i2 r : String)
    (ht1 : s.env.table.contains i1 = true)
    (ht2 : s.env.table.contains i2 = true)
    (hr : ((repeatedResultOf s.env i1 i2).isSome ||
      isRepeatedFailed s.env i1 i2) = true) :
    (moveEntry resolve now st sid s i1 i2 r).success =
        (repeatedResultOf s.env i1 i2).isSome ∧
      (moveEntry resolve now st sid s i1 i2 r).result_element =
        repeatedResultOf s.env i1 i2 := by
  simp only [moveEntry, successResult,
    dispatchMove_repeat resolve s.env i1 i2 ht1 ht2 hr]
  cases hrr : repeatedResultOf s.env i1 i2 <;> simp [hrr]

/-- C2: a `make_move` on a pair already resolved in the session's
ledger (as valid or invalid, in either argument order) does not invoke
the resolver — the output is identical for any two resolvers — and
returns the cached outcome: the environment (inventory and ledger) is
unchanged, one more round is consumed, the appended log entry's success
flag and result are exactly the ledger's cached result, and the
response is built from the cached repeat outcome. -/
theorem c2_repeat_cached (resolve resolve' : Resolver) (fi : List String)
    (now : Nat) (st : ServerState) (sid a b r : String) (s : Session)
    (hs : lookupA st.game_sessions sid = some s) (hd : s.done = false)
    (hc1 : (s.env.table.map pyLower).contains (pyLower (pyStrip a)) = true)
    (hc2 : (s.env.table.map pyLower).contains (pyLower (pyStrip b)) = true)
    (ht1 : s.env.table.contains (pyLower (pyStrip a)) = true)
    (ht2 : s.env.table.contains (pyLower (pyStrip b)) = true)
    (hr : ((repeatedResultOf s.env (pyLower (pyStrip a)) (pyLower (pyStrip b))).isSome ||
      isRepeatedFailed s.env (pyLower (pyStrip a)) (pyLower (pyStrip b))) = true) :
    make_move resolve fi none now st sid a b r =
        make_move resolve' fi none now st sid a b r ∧
      (∃ s', lookupA (make_move resolve fi none now st sid a b r).1.game_sessions sid =
          some s' ∧ s'.env = s.env ∧ s'.rounds_played = s.rounds_played + 1) ∧
      (∃ e, lookupA (make_move resolve fi none now st sid a b r).1.attempt_logs sid =
          some (((lookupA st.attempt_logs sid).getD []) ++ [e]) ∧
        e.success = (repeatedResultOf s.env (pyLower (pyStrip a))
          (pyLower (pyStrip b))).isSome ∧
        e.result_element = repeatedResultOf s.env (pyLower (pyStrip a))
          (pyLower (pyStrip b))) ∧
      (make_move resolve fi none now st sid a b r).2 =
        moveResponse fi (pyLower (pyStrip a)) (pyLower (pyStrip b))
          { env := s.env
            isRepeat := true
            repeatedResult := repeatedResultOf s.env (pyLower (pyStrip a))
              (pyLower (pyStrip b))
            reward := 0
            newItems := []
            done := s.env.done }
          (s.rounds_played + 1) s.max_rounds
          (((lookupA st.attempt_logs sid).getD []).length + 1)
          (moveSessionAfter resolve s (pyLower (pyStrip a))
            (pyLower (pyStrip b))).done := by
  have hdm : dispatchMove resolve s.env (pyLower (pyStrip a)) (pyLower (pyStrip b)) =
      dispatchMove resolve' s.env (pyLower (pyStrip a)) (pyLower (pyStrip b)) := by
    rw [dispatchMove_repeat resolve s.env (pyLower (pyStrip a)) (pyLower (pyStrip b)) ht1 ht2 hr,
      dispatchMove_repeat resolve' s.env (pyLower (pyStrip a)) (pyLower (pyStrip b)) ht1 ht2 hr]
  refine ⟨?_, ?_, ?_, ?_⟩
  · rw [make_move_dispatched resolve fi none now st sid a b r s hs hd hc1 hc2,
      make_move_dispatched resolve' fi none now st sid a b r s hs hd hc1 hc2]
    exact dispatchedMove_resolver_congr resolve resolve' fi none now st sid s
      (pyLower (pyStrip a)) (pyLower (pyStrip b)) (pyStrip r) hdm
  · exact ⟨moveSessionAfter resolve s (pyLower (pyStrip a)) (pyLower (pyStrip b)),
      make_move_dispatched_session resolve fi none now st sid a b r s hs hd hc1 hc2,
      moveSessionAfter_repeat_env resolve s (pyLower (pyStrip a)) (pyLower (pyStrip b)) ht1 ht2 hr,
      moveSessionAfter_rounds resolve s (pyLower (pyStrip a)) (pyLower (pyStrip b))⟩
  · refine ⟨moveEntry resolve now st sid s (pyLower (pyStrip a)) (pyLower (pyStrip b)) (pyStrip r),
      ?_, moveEntry_repeat resolve now st sid s (pyLower (pyStrip a)) (pyLower (pyStrip b))
        (pyStrip r) ht1 ht2 hr⟩
    rw [make_move_dispatched resolve fi none now st sid a b r s hs hd hc1 hc2,
      dispatchedMove_attempt_logs_ok resolve fi now st sid s, lookupA_insertA]
    simp
  · rw [make_move_dispatched resolve fi none now st sid a b r s hs hd hc1 hc2,
      dispatchedMove_response resolve fi now st sid s,
      dispatchMove_repeat resolve s.env (pyLower (pyStrip a)) (pyLower (pyStrip b)) ht1 ht2 hr]

theorem c2_witness :
    make_move demoResolve [] none 0 oneMove "demo" "fire" "air" "" =
        make_move (fun _ _ => none) [] none 0 oneMove "demo" "fire" "air" "" ∧
      (∃ s', lookupA (make_move demoResolve [] none 0 oneMove "demo" "fire" "air" "").1.game_sessions
          "demo" = some s' ∧ s'.env = oneMoveSession.env ∧
          s'.rounds_played = oneMoveSession.rounds_played + 1) ∧
      (∃ e, lookupA (make_move demoResolve [] none 0 oneMove "demo" "fire" "air" "").1.attempt_logs
          "demo" = some (((lookupA oneMove.attempt_logs "demo").getD []) ++ [e]) ∧
        e.success = (repeatedResultOf oneMoveSession.env (pyLower (pyStrip "fire"))
          (pyLower (pyStrip "air"))).isSome ∧
        e.result_element = repeatedResultOf oneMoveSession.env (pyLower (pyStrip "fire"))
          (pyLower (pyStrip "air"))) ∧
      (make_move demoResolve [] none 0 oneMove "demo" "fire" "air" "").2 =
        moveResponse [] (pyLower (pyStrip "fire")) (pyLower (pyStrip "air"))
          { env := oneMoveSession.env
            isRepeat := true
            repeatedResult := repeatedResultOf oneMoveSession.env
              (pyLower (pyStrip "fire")) (pyLower (pyStrip "air"))
            reward := 0
            newItems := []
            done := oneMoveSession.env.done }
          (oneMoveSession.rounds_played + 1) oneMoveSession.max_rounds
          (((lookupA oneMove.attempt_logs "demo").getD []).length + 1)
          (moveSessionAfter demoResolve oneMoveSession (pyLower (pyStrip "fire"))
            (pyLower (pyStrip "air"))).done :=
  c2_repeat_cached demoResolve (fun _ _ => none) [] 0 oneMove "demo" "fire" "air" ""
    oneMoveSession (by decide) (by decide) (by decide) (by decide) (by decide)
    (by decide) (by decide)

end LA2

namespace LA2

/-- C9: in a targeted session, a dispatched `make_move` on a fresh
pair whose resolved result equals the goal item leaves the session with
its done flag set, even though its rounds-played stays strictly below
the round budget. -/
theorem c9_goal_terminates (resolve : Resolver) (fi : List String)
    (lf : Option String) (now : Nat) (st : ServerState) (sid a b r g : String)
    (s : Session) (hs : lookupA st.game_sessions sid = some s)
    (hd : s.done = false) (_htg : s.targeted = true)
    (hc1 : (s.env.table.map pyLower).contains (pyLower (pyStrip a)) = true)
    (hc2 : (s.env.table.map pyLower).contains (pyLower (pyStrip b)) = true)
    (hg : s.env.goal = some g)
    (hres : resolve (pyLower (pyStrip a)) (pyLower (pyStrip b)) = some g)
    (hr : ((repeatedResultOf s.env (pyLower (pyStrip a)) (pyLower (pyStrip b))).isSome ||
      isRepeatedFailed s.env (pyLower (pyStrip a)) (pyLower (pyStrip b))) = false)
    (hb : s.rounds_played + 1 < s.max_rounds) :
    ∃ s', lookupA (make_move resolve fi lf now st sid a b r).1.game_sessions sid =
        some s' ∧ s'.done = true ∧ s'.rounds_played < s.max_rounds := by
  refine ⟨moveSessionAfter resolve s (pyLower (pyStrip a)) (pyLower (pyStrip b)),
    make_move_dispatched_session resolve fi lf now st sid a b r s hs hd hc1 hc2,
    ?_, ?_⟩
  · simp only [moveSessionAfter,
      dispatchMove_goal_done resolve s.env (pyLower (pyStrip a)) (pyLower (pyStrip b))
        g hg hres hr]
    simp
  · rw [moveSessionAfter_rounds]
    exact hb

theorem c9_witness :
    ∃ s', lookupA (make_move demoResolve [] none 0 tgtState "tgt" "air" "fire" "").1.game_sessions
        "tgt" = some s' ∧ s'.done = true ∧ s'.rounds_played < tgtSession.max_rounds :=
  c9_goal_terminates demoResolve [] none 0 tgtState "tgt" "air" "fire" "" "energy"
    tgtSession (by decide) (by decide) (by decide) (by decide) (by decide)
    (by decide) (by decide) (by decide) (by decide)

/-- C3 counterexample: in the `[F, F, S, S, S]` log of `fiveMoves`,
the recorded streaks are (none,0), (failure,1), (failure,2),
(success,1), (success,2) — the last entry does not carry (success,3),
which is the trailing run including that entry — so the claim that each
entry records the run ending at and including itself is false. -/
theorem c3_counterexample :
    ¬ StreakAsClaimed ((lookupA fiveMoves.attempt_logs "demo").getD []) ∧
    (((lookupA fiveMoves.attempt_logs "demo").getD []).map
        (fun e => (e.current_streak_type, e.current_streak_length))) =
      [("none", 0), ("failure", 1), ("failure", 2), ("success", 1), ("success", 2)] ∧
    trailingStreak ((lookupA fiveMoves.attempt_logs "demo").getD []) = ("success", 3) := by
  refine ⟨?_, by decide, by decide⟩
  intro hsc
  have h5 := hsc 4 (by decide)
  revert h5
  decide

/-- C3 amended: the streak recorded in each appended log entry is
computed before the attempt is logged: it equals the run-length of
consecutive same-outcome attempts ending at the last entry of the log
as it was prior to this attempt (`("none", 0)` for a session's first
entry), not the run including the new entry. -/
theorem c3_amended_streak_before (resolve : Resolver) (fi : List String)
    (now : Nat) (st : ServerState) (sid a b r : String) (s : Session)
    (hs : lookupA st.game_sessions sid = some s) (hd : s.done = false)
    (hc1 : (s.env.table.map pyLower).contains (pyLower (pyStrip a)) = true)
    (hc2 : (s.env.table.map pyLower).contains (pyLower (pyStrip b)) = true) :
    ∃ e, lookupA (make_move resolve fi none now st sid a b r).1.attempt_logs sid =
        some (((lookupA st.attempt_logs sid).getD []) ++ [e]) ∧
      (e.current_streak_type, e.current_streak_length) =
        trailingStreak ((lookupA st.attempt_logs sid).getD []) := by
  refine ⟨moveEntry resolve now st sid s (pyLower (pyStrip a)) (pyLower (pyStrip b)) (pyStrip r),
    ?_, ?_⟩
  · rw [make_move_dispatched resolve fi none now st sid a b r s hs hd hc1 hc2,
      dispatchedMove_attempt_logs_ok resolve fi now st sid s, lookupA_insertA]
    simp
  · rw [(moveEntry_fields resolve now st sid s (pyLower (pyStrip a))
      (pyLower (pyStrip b)) (pyStrip r)).2.2.2.2]
    exact get_current_streak_eq_trailingStreak ((lookupA st.attempt_logs sid).getD [])

theorem c3_witness :
    ∃ e, lookupA (make_move demoResolve [] none 0 fiveMoves "demo" "earth" "air" "").1.attempt_logs
        "demo" = some (((lookupA fiveMoves.attempt_logs "demo").getD []) ++ [e]) ∧
      (e.current_streak_type, e.current_streak_length) =
        trailingStreak ((lookupA fiveMoves.attempt_logs "demo").getD []) :=
  c3_amended_streak_before demoResolve [] 0 fiveMoves "demo" "earth" "air" ""
    ((lookupA fiveMoves.game_sessions "demo").getD demoSession)
    (by decide) (by decide) (by decide) (by decide)

/-- C6 counterexample: calling `make_move` with item string `"Air "`
logs `Element_1 = "air"`, not the caller's exact string `"Air "` — the
arguments are stripped and lowercased before logging, so the claim that
the fields hold the caller's strings without normalization is false. -/
theorem c6_counterexample :
    (((lookupA mixedCaseMove.attempt_logs "demo").getD []).map (fun e => e.element1)) =
      ["air"] ∧ ("air" : String) ≠ "Air " := by
  exact ⟨by decide, by decide⟩

/-- C6 amended: the `Element_1`/`Element_2` fields of each appended
log entry are the caller's item strings after `make_move`'s entry
normalization (whitespace stripped, lowercased); they are not further
transformed into the ledger's index key. -/
theorem c6_amended_normalized (resolve : Resolver) (fi : List String)
    (now : Nat) (st : ServerState) (sid a b r : String) (s : Session)
    (hs : lookupA st.game_sessions sid = some s) (hd : s.done = false)
    (hc1 : (s.env.table.map pyLower).contains (pyLower (pyStrip a)) = true)
    (hc2 : (s.env.table.map pyLower).contains (pyLower (pyStrip b)) = true) :
    ∃ e, lookupA (make_move resolve fi none now st sid a b r).1.attempt_logs sid =
        some (((lookupA st.attempt_logs sid).getD []) ++ [e]) ∧
      e.element1 = pyLower (pyStrip a) ∧ e.element2 = pyLower (pyStrip b) := by
  refine ⟨moveEntry resolve now st sid s (pyLower (pyStrip a)) (pyLower (pyStrip b)) (pyStrip r),
    ?_, rfl, rfl⟩
  rw [make_move_dispatched resolve fi none now st sid a b r s hs hd hc1 hc2,
    dispatchedMove_attempt_logs_ok resolve fi now st sid s, lookupA_insertA]
  simp

theorem c6_witness :
    ∃ e, lookupA (make_move demoResolve [] none 0 demoState "demo" "Air " "fire" "why").1.attempt_logs
        "demo" = some (((lookupA demoState.attempt_logs "demo").getD []) ++ [e]) ∧
      e.element1 = pyLower (pyStrip "Air ") ∧ e.element2 = pyLower (pyStrip "fire") :=
  c6_amended_normalized demoResolve [] 0 demoState "demo" "Air " "fire" "why"
    demoSession (by decide) (by decide) (by decide) (by decide)

set_option maxRecDepth 8192 in
/-- C8 counterexample: when the logging step raises, `make_move`
returns the error report "❌ Error making move: boom" instead of the
move's success outcome (the text it returns when logging succeeds), so
the claim that the outcome is still returned is false. -/
theorem c8_counterexample :
    (make_move demoResolve [] (some "boom") 0 demoState "demo" "air" "fire" "").2 ≠
        (make_move demoResolve [] none 0 demoState "demo" "air" "fire" "").2 ∧
      (make_move demoResolve [] (some "boom") 0 demoState "demo" "air" "fire" "").2 =
        "❌ Error making move: boom" ∧
      (make_move demoResolve [] none 0 demoState "demo" "air" "fire" "").2 =
        "✅ SUCCESS! 'air' + 'fire' = 'energy'\n🎉 'energy' has been added to your inventory!" ++
          "\n\nRounds used: 1/10\nItems discovered: 5\n📝 Logged attempt #1" ++
          " (Use 'get_attempt_logs' to view all logs)" := by
  refine ⟨by decide, by decide, by decide⟩

/-- C8 amended: if the logging step raises after the move has been
dispatched, `make_move` returns the error report built from the
exception text rather than the move's outcome; the session mutation
(rounds, inventory, ledger, done flag) persists and no log entry is
appended. -/
theorem c8_amended_error_report (resolve : Resolver) (fi : List String)
    (msg : String) (now : Nat) (st : ServerState) (sid a b r : String)
    (s : Session) (hs : lookupA st.game_sessions sid = some s)
    (hd : s.done = false)
    (hc1 : (s.env.table.map pyLower).contains (pyLower (pyStrip a)) = true)
    (hc2 : (s.env.table.map pyLower).contains (pyLower (pyStrip b)) = true) :
    make_move resolve fi (some msg) now st sid a b r =
      ({ st with game_sessions := insertA st.game_sessions sid (moveSessionAfter resolve s (pyLower (pyStrip a)) (pyLower (pyStrip b))) },
       "❌ Error making move: " ++ msg) := by
  rw [make_move_dispatched resolve fi (some msg) now st sid a b r s hs hd hc1 hc2]
  rfl

theorem c8_witness :
    make_move demoResolve [] (some "boom") 0 demoState "demo" "air" "fire" "" =
      ({ demoState with game_sessions := insertA demoState.game_sessions "demo" (moveSessionAfter demoResolve demoSession (pyLower (pyStrip "air")) (pyLower (pyStrip "fire"))) },
       "❌ Error making move: " ++ "boom") :=
  c8_amended_error_report demoResolve [] "boom" 0 demoState "demo" "air" "fire" ""
    demoSession (by decide) (by decide) (by decide) (by decide)

end LA2
